import Mathlib

/-!
Verification development for the Think-Bot repository (files
`deep_researcher.py`, `deep_researcher_api.py`, `notion_manager.py`).

The repository implements a linear multi-stage research workflow with a
single bounded feedback edge (critic to writer, capped at 2 revisions).
This file gives a shallow embedding of the workflow: every stage function
of `deep_researcher.py` is translated into a Lean function over an explicit
`AgentState` record, with all external collaborators (the text-generation
model, the search tool and the archive page creator) abstracted into an
`Oracle` record of functions whose results the stages consume exactly the
way the Python code does.  `deep_researcher_api.py` contains the same
stage logic (its only differences are extra progress messages appended to
the conversation); every claim-relevant computation below is shared
verbatim by both files, so the embedding covers both.
-/

namespace ThinkBot

/-! ### String constants used by the source -/

def emptyStr : String := ""

def nl : String := "\n"

def aiRole : String := "ai"

def humanRole : String := "human"

/-- The tag tested by `note.startswith` in `finalizer` (no trailing space). -/
def srcTag : String := "Source:"

/-- The tag removed by `.replace` in `finalizer` (with trailing space). -/
def srcTagSp : String := "Source: "

def queryResHdr : String := "Query result:\n"

def fenceJson : String := "```json"

def fence : String := "```"

def eqMark : String := "="

def hashMark : String := "#"

def defaultTitle : String := "Research Report"

def defaultQuestion : String := "Could you provide more details?"

def generalSearch : String := "general search"

def mainTopic : String := "main topic"

/-- The separator in the Python key-topics join. -/
def commaSpace : String := ", "

/-- A single quote character, used inside the schema description strings
(the Python code renders pydantic field annotations such as the text
class markers, which contain quotes). -/
def sq : String := String.mk [Char.ofNat 39]

/-- The separator row built by the Python expression repeating the equals
sign 70 times. -/
def sep70 : String := String.mk (List.replicate 70 (Char.ofNat 61))

/-! ### Character-level string primitives

The Python string operations the workflow uses (`split`, `strip`,
`replace`, `startswith`, slicing by character count) are modelled directly
on the character list of the string, mirroring the Python semantics:
splits and replacements consume non-overlapping occurrences left to
right, keeping empty parts; strip removes whitespace from both ends;
slicing counts characters. -/

def isPrefixChars : List Char → List Char → Bool
  | [], _ => true
  | _ :: _, [] => false
  | a :: as, b :: bs => a == b && isPrefixChars as bs

def splitOnFuel (sep : List Char) : Nat → List Char → List Char → List (List Char)
  | 0, l, acc => [acc.reverse ++ l]
  | fuel + 1, l, acc =>
      match l with
      | [] => [acc.reverse]
      | c :: rest =>
          if isPrefixChars sep l then
            acc.reverse :: splitOnFuel sep fuel (l.drop sep.length) []
          else
            splitOnFuel sep fuel rest (c :: acc)

/-- Python `s.split(sep)` for a nonempty separator (the workflow only
splits on a newline or a markdown fence). -/
def strSplitOn (s sep : String) : List String :=
  if sep.data.isEmpty then [s]
  else (splitOnFuel sep.data s.data.length s.data []).map String.mk

def replaceFuel (pat rep : List Char) : Nat → List Char → List Char
  | 0, l => l
  | fuel + 1, l =>
      match l with
      | [] => []
      | c :: rest =>
          if isPrefixChars pat l then
            rep ++ replaceFuel pat rep fuel (l.drop pat.length)
          else c :: replaceFuel pat rep fuel rest

/-- Python `s.replace(pat, rep)` for a nonempty pattern. -/
def strReplace (s pat rep : String) : String :=
  if pat.data.isEmpty then s
  else String.mk (replaceFuel pat.data rep.data s.data.length s.data)

/-- Python `s.strip()`. -/
def strTrim (s : String) : String :=
  String.mk (((s.data.dropWhile Char.isWhitespace).reverse.dropWhile
    Char.isWhitespace).reverse)

/-- Python `s.startswith(pre)`. -/
def strStartsWith (s pre : String) : Bool := isPrefixChars pre.data s.data

/-- Python slicing `s[:n]` (by characters). -/
def strTake (s : String) (n : Nat) : String := String.mk (s.data.take n)

/-- Python emptiness test on a string. -/
def strIsEmpty (s : String) : Bool := s.data.isEmpty

/-! ### Structured response schemas (the pydantic models) -/

structure ClarifyWithUser where
  need_clarification : Bool
  question : String
  verification : String
deriving DecidableEq

structure ResearchQuestion where
  research_brief : String
  reasoning : String
deriving DecidableEq

structure ResearchPlan where
  search_queries : List String
  key_topics : List String
  planning_reasoning : String
deriving DecidableEq

structure Critique where
  needs_revision : Bool
  critique_reasoning : String
  specific_issues : List String
  improvements : List String
deriving DecidableEq

/-! ### Workflow state (the `AgentState` TypedDict) -/

/-- A role-tagged conversation message (`msg.type` and `msg.content`). -/
structure Msg where
  role : String
  content : String
deriving DecidableEq

/-- The mutable session record threaded through every stage.  Fields that
are absent from the initial invocation read as their Python defaults (the
code accesses every field through `state.get(key, default)`). -/
structure AgentState where
  messages : List Msg
  research_brief : String
  search_queries : List String
  key_topics : List String
  raw_notes : List String
  notes : List String
  draft_report : String
  critique_feedback : String
  final_report : String
  iteration_count : Nat
  notion_page_url : String
deriving DecidableEq

/-- The nodes of the langgraph state graph, plus the END node. -/
inductive Node
  | clarify
  | planner
  | researcher
  | synthesis
  | writer
  | critic
  | finalizer
  | done
deriving DecidableEq, BEq

/-! ### External collaborators -/

/-- One search hit, a content and url pair (`result.get` fields). -/
structure SearchResult where
  content : String
  url : String
deriving DecidableEq

/-- What `search_tool.invoke` returns: either a list of results or some
other value, which the code stringifies. -/
inductive SearchOut
  | results (rs : List SearchResult)
  | other (text : String)
deriving DecidableEq

/-- The arguments the finalizer passes to `create_research_page`. -/
structure ArchiveReq where
  title : String
  research_brief : String
  report_content : String
  sources_count : Nat
  key_topics : List String
deriving DecidableEq

/-- Outcome of the archive call: the success dictionary, the failure
dictionary (`create_research_page` catches its own exceptions and returns
a success flag of False), or an exception raised before or during the
call (for instance a failing import), which the finalizer catches. -/
inductive ArchiveOutcome
  | success (page_id : String) (url : String)
  | failed (err : String)
  | raised (e : String)
deriving DecidableEq

/-- The external collaborators.  `gen` is `model.generate_content`
(prompt to text, or a raised exception, modelled as `Except.error`).
The four parse functions model `json.loads` plus pydantic validation for
each schema: `none` means the attempt raised (malformed response).
`search` is `search_tool.invoke`; `archive` is the whole
`create_research_page` interaction; `now` is the formatted timestamp
`datetime.now().strftime(...)`. -/
structure Oracle where
  gen : String → Except String String
  parseClarify : String → Option ClarifyWithUser
  parseBrief : String → Option ResearchQuestion
  parsePlan : String → Option ResearchPlan
  parseCritique : String → Option Critique
  search : String → Except String SearchOut
  archive : ArchiveReq → ArchiveOutcome
  now : String

/-! ### `get_structured_response` -/

/-- The schema field listing the code appends to the prompt, rendered for
`ClarifyWithUser` (pydantic annotation reprs). -/
def clarifySchemaStr : String :=
  "- need_clarification: <class " ++ sq ++ "bool" ++ sq ++ ">\n- question: <class "
    ++ sq ++ "str" ++ sq ++ ">\n- verification: <class " ++ sq ++ "str" ++ sq ++ ">"

def briefSchemaStr : String :=
  "- research_brief: <class " ++ sq ++ "str" ++ sq ++ ">\n- reasoning: <class "
    ++ sq ++ "str" ++ sq ++ ">"

def planSchemaStr : String :=
  "- search_queries: list[str]\n- key_topics: list[str]\n- planning_reasoning: <class "
    ++ sq ++ "str" ++ sq ++ ">"

def critiqueSchemaStr : String :=
  "- needs_revision: <class " ++ sq ++ "bool" ++ sq ++ ">\n- critique_reasoning: <class "
    ++ sq ++ "str" ++ sq ++ ">\n- specific_issues: list[str]\n- improvements: list[str]"

/-- `full_prompt = f"{prompt}\n\nRespond in JSON format with these fields:\n{schema_str}"`. -/
def fullPrompt (prompt schemaStr : String) : String :=
  prompt ++ "\n\nRespond in JSON format with these fields:\n" ++ schemaStr

/-- The markdown-fence stripping performed before `json.loads`: if the
response contains a json fence, keep the text between it and the next
fence; otherwise if it contains a plain fence, keep the text between the
first and second fence; finally strip whitespace. -/
def extractJsonText (t : String) : String :=
  let t1 :=
    if (strSplitOn t fenceJson).length > 1 then
      (strSplitOn ((strSplitOn t fenceJson).getD 1 emptyStr) fence).getD 0 emptyStr
    else if (strSplitOn t fence).length > 1 then
      (strSplitOn ((strSplitOn t fence).getD 1 emptyStr) fence).getD 0 emptyStr
    else t
  strTrim t1

/-- The try-block of `get_structured_response` for the `ClarifyWithUser`
schema: parse the fence-stripped response text, falling back to the
needs-clarification default on a parse failure. -/
def structuredClarify (o : Oracle) (text : String) : ClarifyWithUser :=
  match o.parseClarify (extractJsonText text) with
  | some v => v
  | none =>
      { need_clarification := true, question := defaultQuestion,
        verification := emptyStr }

/-- The try-block for `ResearchQuestion`; the fallback reuses the prompt
itself as the research brief. -/
def structuredBrief (o : Oracle) (prompt text : String) : ResearchQuestion :=
  match o.parseBrief (extractJsonText text) with
  | some v => v
  | none => { research_brief := prompt, reasoning := emptyStr }

/-- The try-block for `ResearchPlan`. -/
def structuredPlan (o : Oracle) (text : String) : ResearchPlan :=
  match o.parsePlan (extractJsonText text) with
  | some v => v
  | none =>
      { search_queries := [generalSearch], key_topics := [mainTopic],
        planning_reasoning := emptyStr }

/-- The try-block for `Critique`; the fallback is the no-revision-needed
critique. -/
def structuredCritique (o : Oracle) (text : String) : Critique :=
  match o.parseCritique (extractJsonText text) with
  | some v => v
  | none =>
      { needs_revision := false, critique_reasoning := emptyStr,
        specific_issues := [], improvements := [] }

/-- `get_structured_response` specialised to the `ClarifyWithUser` schema.
`model.generate_content` is called before the try block, so a raised
exception there propagates; a parse failure inside the try block falls
back to the stage-specific default. -/
def get_structured_response_clarify (o : Oracle) (prompt : String) :
    Except String ClarifyWithUser :=
  match o.gen (fullPrompt prompt clarifySchemaStr) with
  | Except.error e => Except.error e
  | Except.ok text => Except.ok (structuredClarify o text)

/-- `get_structured_response` specialised to `ResearchQuestion`. -/
def get_structured_response_brief (o : Oracle) (prompt : String) :
    Except String ResearchQuestion :=
  match o.gen (fullPrompt prompt briefSchemaStr) with
  | Except.error e => Except.error e
  | Except.ok text => Except.ok (structuredBrief o prompt text)

/-- `get_structured_response` specialised to `ResearchPlan`. -/
def get_structured_response_plan (o : Oracle) (prompt : String) :
    Except String ResearchPlan :=
  match o.gen (fullPrompt prompt planSchemaStr) with
  | Except.error e => Except.error e
  | Except.ok text => Except.ok (structuredPlan o text)

/-- `get_structured_response` specialised to `Critique`. -/
def get_structured_response_critique (o : Oracle) (prompt : String) :
    Except String Critique :=
  match o.gen (fullPrompt prompt critiqueSchemaStr) with
  | Except.error e => Except.error e
  | Except.ok text => Except.ok (structuredCritique o text)

/-! ### Prompt construction -/

/-- `"\n".join(f"{msg.type}: {msg.content}" for msg in messages)`. -/
def conversationOf (msgs : List Msg) : String :=
  String.intercalate nl (msgs.map (fun m => m.role ++ ": " ++ m.content))

def clarifyPrompt (conversation : String) : String :=
  "Analyze this conversation: " ++ conversation ++
  "\n\nThink step by step:\n1. Is the research request clear and specific?\n2. What key information might be missing?\n3. Can research begin or do we need clarification?\n\nDetermine if there is sufficient information to begin research.\nIf information is missing, ask ONE specific clarifying question.\nIf sufficient information exists, provide a verification message."

def briefPrompt (conversation : String) : String :=
  "Transform this conversation into a clear research brief: " ++ conversation ++
  "\n\nThink step by step:\n1. What is the core research question?\n2. What are the key focus areas?\n3. What is the scope and boundaries?\n\nThe research brief should clearly state the research question, specify key focus areas, and define scope."

def planPrompt (research_brief : String) : String :=
  "Create a research plan for: " ++ research_brief ++
  "\n\nThink step by step:\n1. What topics need to be covered comprehensively?\n2. What specific search queries will find the best information?\n3. How should queries be structured for maximum relevance?\n\nGenerate 5-7 specific search queries and identify key topics."

def synthesisPrompt (research_brief : String) (key_topics raw_notes : List String) :
    String :=
  "Research Brief: " ++ research_brief ++ "\nKey Topics: " ++
  String.intercalate commaSpace key_topics ++ "\nRaw Research Data:\n" ++
  String.intercalate nl raw_notes ++
  "\n\nThink step by step:\n1. What are the main themes and patterns in this data?\n2. What specific facts, numbers, names, and examples are most valuable?\n3. How should this information be organized for clarity?\n4. What actionable details must be preserved?\n\nSynthesize this information into comprehensive, well-structured notes.\nExtract ALL specific, actionable details including:\n- Names of companies, products, people, places, organizations\n- Exact numbers, statistics, dates, prices, measurements\n- Addresses, locations, contact information\n- URLs, website links, booking platforms\n- Step-by-step processes or instructions\n- Pros and cons, comparisons, rankings\n- Expert recommendations and best practices\n- Time-sensitive information (hours, schedules, deadlines)\n\nOrganize the notes by topic and preserve all specific details that would be useful to someone acting on this research."

/-- The optional critique block inserted in the writer prompt. -/
def feedbackSection (critique_feedback : String) : String :=
  if critique_feedback = emptyStr then emptyStr
  else
    "\n\nPREVIOUS CRITIQUE TO ADDRESS:\n" ++ critique_feedback ++
    "\n\nPlease revise the report addressing all critique points."

def reportPrompt (research_brief : String) (notes : List String)
    (critique_feedback : String) : String :=
  "You are an expert research analyst creating a comprehensive report.\n\nResearch Brief: "
  ++ research_brief ++ "\n\nSynthesized Research Notes:\n" ++
  String.intercalate nl notes ++ nl ++ feedbackSection critique_feedback ++
  "\n\nThink step by step:\n1. What is the best structure to present this information clearly?\n2. What are the most important findings to highlight?\n3. How can I make this maximally actionable and detailed?\n4. Have I included all specific data points and examples?\n\nCreate a detailed, actionable research report with the following structure:\n\n1. TITLE: Create a clear, descriptive title\n\n2. EXECUTIVE SUMMARY: Provide a concise 3-4 sentence overview of the research findings\n\n3. KEY FINDINGS: List 7-10 most important discoveries with specific details (names, numbers, links)\n\n4. DETAILED ANALYSIS: Write 5-7 comprehensive paragraphs organized by themes/topics. Include:\n   - All specific names, brands, products, services mentioned\n   - Exact numbers, prices, statistics, percentages\n   - Step-by-step processes or how-to information\n   - Comparisons and rankings\n   - Expert opinions and recommendations\n   - Time-sensitive details (dates, schedules, hours)\n   - Contact information and locations where relevant\n\n5. PRACTICAL RECOMMENDATIONS: Provide 5-7 actionable next steps or recommendations based on the research\n\n6. IMPORTANT RESOURCES: List specific websites, tools, platforms, or contacts discovered\n\n7. CONCLUSION: Summarize key takeaways and final thoughts\n\nMake the report comprehensive and include every useful specific detail from the research. Format it clearly with proper sections."

def critiquePrompt (research_brief draft_report : String) : String :=
  "You are a critical reviewer evaluating a research report for quality, completeness, and actionability.\n\nResearch Brief: "
  ++ research_brief ++ "\n\nDraft Report:\n" ++ draft_report ++
  "\n\nThink step by step (reflection):\n1. Does this report fully answer the research question with sufficient depth?\n2. Are there any missing details, information gaps, or unclear sections?\n3. Is the structure logical, well-organized, and easy to follow?\n4. Are specific examples, data points, numbers, and sources provided throughout?\n5. Is this report actionable with concrete recommendations?\n6. Does it meet professional research report standards?\n\nEvaluate the report and determine if revision is needed. Be thorough but fair."

/-- The feedback text the critic attaches when requesting a revision. -/
def feedbackOf (c : Critique) : String :=
  "Issues identified:\n" ++
  String.intercalate nl (c.specific_issues.map (fun issue => "- " ++ issue)) ++
  "\n\nImprovements needed:\n" ++
  String.intercalate nl (c.improvements.map (fun imp => "- " ++ imp)) ++
  "\n\nReasoning: " ++ c.critique_reasoning

/-! ### The stage functions -/

/-- `clarify_with_user`: on a needs-clarification verdict, go to END with
the question appended to the conversation; otherwise go to the planner
with the verification message appended. -/
def clarify_with_user (o : Oracle) (s : AgentState) :
    Except String (Node × AgentState) :=
  match get_structured_response_clarify o
      (clarifyPrompt (conversationOf s.messages)) with
  | Except.error e => Except.error e
  | Except.ok response =>
      if response.need_clarification then
        Except.ok (Node.done,
          { s with messages := s.messages ++
              [{ role := aiRole, content := response.question }] })
      else
        Except.ok (Node.planner,
          { s with messages := s.messages ++
              [{ role := aiRole, content := response.verification }] })

/-- `planner_agent`: produce the research brief, then the plan, and go to
the researcher (the terminal banner printing is I/O and not modelled). -/
def planner_agent (o : Oracle) (s : AgentState) :
    Except String (Node × AgentState) :=
  match get_structured_response_brief o
      (briefPrompt (conversationOf s.messages)) with
  | Except.error e => Except.error e
  | Except.ok response =>
      match get_structured_response_plan o (planPrompt response.research_brief) with
      | Except.error e => Except.error e
      | Except.ok plan =>
          Except.ok (Node.researcher,
            { s with research_brief := response.research_brief,
                     search_queries := plan.search_queries,
                     key_topics := plan.key_topics })

/-- The raw-note accumulation loop of `researcher_agent`: a raised
exception on one query is swallowed; list results contribute one tagged
note per nonempty content; a non-list result contributes one untagged
note. -/
def collectedNotes (o : Oracle) (search_queries : List String) : List String :=
  search_queries.foldl (fun acc query =>
    match o.search query with
    | Except.error _ => acc
    | Except.ok (SearchOut.results rs) =>
        acc ++ rs.filterMap (fun r =>
          if r.content.isEmpty then none
          else some (srcTagSp ++ r.url ++ nl ++ r.content))
    | Except.ok (SearchOut.other t) => acc ++ [queryResHdr ++ t]) []

/-- `researcher_agent`: run every query and store the raw notes. -/
def researcher_agent (o : Oracle) (s : AgentState) :
    Except String (Node × AgentState) :=
  Except.ok (Node.synthesis,
    { s with raw_notes := collectedNotes o s.search_queries })

/-- `synthesis_agent`: one free-form generation call with no exception
handler, so a raised exception propagates. -/
def synthesis_agent (o : Oracle) (s : AgentState) :
    Except String (Node × AgentState) :=
  match o.gen (synthesisPrompt s.research_brief s.key_topics s.raw_notes) with
  | Except.error e => Except.error e
  | Except.ok text => Except.ok (Node.writer, { s with notes := [text] })

/-- The `report_text` assignment of `writer_agent`: the generation call
is wrapped in try/except; on a raised exception the draft becomes the
error text followed by the raw notes string. -/
def writtenReport (o : Oracle) (s : AgentState) : String :=
  match o.gen (reportPrompt s.research_brief s.notes s.critique_feedback) with
  | Except.ok t => t
  | Except.error e =>
      "Error generating report: " ++ e ++ "\n\nRaw Notes:\n" ++
      String.intercalate nl s.notes

/-- `writer_agent`: overwrite the draft wholesale and always proceed to
the critic. -/
def writer_agent (o : Oracle) (s : AgentState) :
    Except String (Node × AgentState) :=
  Except.ok (Node.critic, { s with draft_report := writtenReport o s })

/-- The revision cap, `MAX_ITERATIONS = 2` in `critic_agent`. -/
def MAX_ITERATIONS : Nat := 2

/-- `critic_agent`: request a structured critique; if it asks for a
revision while the counter is below the cap, increment the counter,
attach the feedback and return to the writer; otherwise go to the
finalizer. -/
def critic_agent (o : Oracle) (s : AgentState) :
    Except String (Node × AgentState) :=
  match get_structured_response_critique o
      (critiquePrompt s.research_brief s.draft_report) with
  | Except.error e => Except.error e
  | Except.ok critique =>
      if critique.needs_revision ∧ s.iteration_count < MAX_ITERATIONS then
        Except.ok (Node.writer,
          { s with critique_feedback := feedbackOf critique,
                   iteration_count := s.iteration_count + 1 })
      else
        Except.ok (Node.finalizer, s)

/-! ### The finalizer -/

/-- The source list: first line of each raw note that starts with the
source tag, tag text removed, deduplicated by exact string equality.
The Python code builds this with `list(set(...))`, whose iteration order
is unspecified; `List.dedup` realises one such order. -/
def sourcesOf (raw_notes : List String) : List String :=
  ((raw_notes.filter (fun note => strStartsWith note srcTag)).map
    (fun note =>
      strReplace ((strSplitOn note nl).headD emptyStr) srcTagSp emptyStr)).dedup

/-- The at-most-25 sources actually rendered in the report. -/
def renderedSources (raw_notes : List String) : List String :=
  (sourcesOf raw_notes).take 25

/-- The numbered source lines appended to the report. -/
def sourceLines (sources : List String) : String :=
  String.join ((List.enumFrom 1 sources).map
    (fun p => toString p.1 ++ ". " ++ p.2 ++ nl))

/-- The fully formatted final report assembled by `finalizer`. -/
def formattedReport (now : String) (s : AgentState) : String :=
  nl ++ sep70 ++ "\nAI DEEP RESEARCHER - COMPREHENSIVE REPORT\n" ++ sep70 ++
  "\n\n" ++ s.draft_report ++ "\n\n" ++ sep70 ++ "\nSOURCES CONSULTED\n" ++
  sep70 ++ nl ++ sourceLines (renderedSources s.raw_notes) ++
  nl ++ sep70 ++ "\nReport Generated: " ++ now ++
  "\nResearch Quality: " ++ toString s.raw_notes.length ++ " sources analyzed" ++
  "\nReflection Iterations: " ++ toString s.iteration_count ++
  "\nSystem: Multi-Agent with Reflection & Chain of Thought\n" ++ sep70

/-- `finalizer` title extraction: walk the first 10 lines of the draft;
the first line whose stripped text is nonempty, does not start with a
separator or heading marker, and is longer than 10 characters becomes
the title, truncated to 100 characters; otherwise the default title. -/
def titleLineOk (line : String) : Bool :=
  let t := strTrim line
  !(strIsEmpty t) && !(strStartsWith t eqMark) && !(strStartsWith t hashMark) &&
    decide (t.length > 10)

def extractTitle (draft_report : String) : String :=
  match ((strSplitOn draft_report nl).take 10).find? titleLineOk with
  | some line => strTake (strTrim line) 100
  | none => defaultTitle

/-- The argument record for `create_research_page`. -/
def archiveReqOf (now : String) (s : AgentState) : ArchiveReq :=
  { title := extractTitle s.draft_report,
    research_brief := s.research_brief,
    report_content := formattedReport now s,
    sources_count := (sourcesOf s.raw_notes).length,
    key_topics := s.key_topics }

/-- The `notion_url` computed by `finalizer`: both the failure dictionary
and a raised exception leave the page url empty. -/
def notionUrlOf (o : Oracle) (s : AgentState) : String :=
  match o.archive (archiveReqOf o.now s) with
  | ArchiveOutcome.success _ url => url
  | ArchiveOutcome.failed _ => emptyStr
  | ArchiveOutcome.raised _ => emptyStr

/-- `finalizer`: assemble the report, attempt the archive call, and finish
at END with the final report stored in the state. -/
def finalizer (o : Oracle) (s : AgentState) :
    Except String (Node × AgentState) :=
  Except.ok (Node.done,
    { s with final_report := formattedReport o.now s,
             notion_page_url := notionUrlOf o s })

/-! ### The compiled graph -/

/-- One transition of the compiled state graph. -/
def step (o : Oracle) (n : Node) (s : AgentState) :
    Except String (Node × AgentState) :=
  match n with
  | Node.clarify => clarify_with_user o s
  | Node.planner => planner_agent o s
  | Node.researcher => researcher_agent o s
  | Node.synthesis => synthesis_agent o s
  | Node.writer => writer_agent o s
  | Node.critic => critic_agent o s
  | Node.finalizer => finalizer o s
  | Node.done => Except.ok (Node.done, s)

/-- Fuel-bounded execution of the graph, recording the sequence of stages
entered, the node reached and the resulting state.  A stage that raises
propagates the error to the caller, exactly as `workflow.invoke` does. -/
def runTrace (o : Oracle) : Nat → Node → AgentState →
    Except String (List Node × Node × AgentState)
  | _, Node.done, s => Except.ok ([], Node.done, s)
  | 0, n, s => Except.ok ([], n, s)
  | fuel + 1, n, s =>
      match step o n s with
      | Except.error e => Except.error e
      | Except.ok (n', s') =>
          match runTrace o fuel n' s' with
          | Except.error e => Except.error e
          | Except.ok (tr, nf, s'') => Except.ok (n :: tr, nf, s'')

/-- The state `run_complete_research` starts a session with: the user
message plus an iteration counter of 0; all other fields read as their
`state.get` defaults. -/
def initState (msgs : List Msg) : AgentState :=
  { messages := msgs, research_brief := emptyStr, search_queries := [],
    key_topics := [], raw_notes := [], notes := [], draft_report := emptyStr,
    critique_feedback := emptyStr, final_report := emptyStr,
    iteration_count := 0, notion_page_url := emptyStr }

/-! ### Abbreviations for oracle outputs under total generation

When every `model.generate_content` call returns text (function `g`),
these name the structured values each stage obtains. -/

@[reducible] def clarifyResponse (o : Oracle) (g : String → String) (s : AgentState) :
    ClarifyWithUser :=
  structuredClarify o
    (g (fullPrompt (clarifyPrompt (conversationOf s.messages)) clarifySchemaStr))

@[reducible] def plannerBrief (o : Oracle) (g : String → String) (s : AgentState) :
    ResearchQuestion :=
  structuredBrief o (briefPrompt (conversationOf s.messages))
    (g (fullPrompt (briefPrompt (conversationOf s.messages)) briefSchemaStr))

@[reducible] def plannerPlan (o : Oracle) (g : String → String) (s : AgentState) :
    ResearchPlan :=
  structuredPlan o
    (g (fullPrompt (planPrompt (plannerBrief o g s).research_brief) planSchemaStr))

@[reducible] def criticCritique (o : Oracle) (g : String → String) (s : AgentState) :
    Critique :=
  structuredCritique o
    (g (fullPrompt (critiquePrompt s.research_brief s.draft_report)
        critiqueSchemaStr))

/-! ### Title extraction, as the specification words it

Two further definitions written from the claim text, for comparison with
`extractTitle` (which is translated from the code). -/

/-- The claimed policy: scan the first 10 NON-EMPTY lines of the draft,
then apply the marker and length filters. -/
def extractTitleSpecTen (draft_report : String) : String :=
  match (((strSplitOn draft_report nl).filter
      (fun l => !(strIsEmpty l))).take 10).find? titleLineOk with
  | some line => strTake (strTrim line) 100
  | none => defaultTitle

/-- The amended policy, as a direct scan with early exit over the first
10 raw lines (blank or marker lines are skipped but count toward the 10). -/
def extractTitleScan : List String → String
  | [] => defaultTitle
  | l :: ls =>
      if titleLineOk l then strTake (strTrim l) 100 else extractTitleScan ls

/-- A draft whose first 10 lines are blank and whose 11th line is a valid
title: the code and the claimed first-10-non-empty-lines policy disagree
here. -/
def badDraft : String :=
  "\n\n\n\n\n\n\n\n\n\nInteresting findings about hiking"

/-! ### Concrete fixtures used by witnesses and counterexamples -/

def msgs0 : List Msg := [{ role := humanRole, content := "hi" }]

def gZero : String → String := fun _ => emptyStr

def clNo : ClarifyWithUser :=
  { need_clarification := false, question := emptyStr, verification := emptyStr }

def crYes : Critique :=
  { needs_revision := true, critique_reasoning := emptyStr,
    specific_issues := [], improvements := [] }

def clNoF : String → ClarifyWithUser := fun _ => clNo

def crYesF : String → Critique := fun _ => crYes

def boomStr : String := "boom"

/-- A benign oracle: generation returns empty text, every parse fails
(so every stage uses its fallback default), search raises, archival
returns the failure dictionary. -/
def oW : Oracle :=
  { gen := fun _ => Except.ok emptyStr, parseClarify := fun _ => none,
    parseBrief := fun _ => none, parsePlan := fun _ => none,
    parseCritique := fun _ => none, search := fun _ => Except.error emptyStr,
    archive := fun _ => ArchiveOutcome.failed emptyStr, now := emptyStr }

/-- Like `oW` but clarification always passes and the critique always
demands a revision. -/
def oRev : Oracle :=
  { oW with parseClarify := fun _ => some clNo,
            parseCritique := fun _ => some crYes }

/-- Like `oW` but every generation call raises. -/
def oBad : Oracle := { oW with gen := fun _ => Except.error boomStr }

/-- Like `oW` but the archive call raises instead of returning failure. -/
def oArch : Oracle := { oW with archive := fun _ => ArchiveOutcome.raised emptyStr }

/-- A session sitting at the critic with the revision counter at the cap. -/
def stMax : AgentState := { initState msgs0 with iteration_count := MAX_ITERATIONS }

/-- The state after `oRev` runs the critic on a fresh session. -/
def stRev1 : AgentState :=
  { initState msgs0 with critique_feedback := feedbackOf crYes,
                         iteration_count := 1 }

/-- The state after `oW` answers the clarification stage on a fresh
session (needs-clarification default, question appended). -/
def sClar1 : AgentState :=
  { initState msgs0 with messages :=
      msgs0 ++ [{ role := aiRole, content := defaultQuestion }] }

/-- Two states sharing a draft report but differing elsewhere. -/
def stA : AgentState :=
  { initState msgs0 with draft_report := "A good long draft title line" }

def stB : AgentState := { stA with notion_page_url := boomStr }

/-- The stage sequence of end-to-end scenario C: writer entered exactly 3
times, the finalizer right after the third critique. -/
def scenarioTrace : List Node :=
  [Node.clarify, Node.planner, Node.researcher, Node.synthesis,
   Node.writer, Node.critic, Node.writer, Node.critic,
   Node.writer, Node.critic, Node.finalizer]

/-! ### Helper lemmas -/

lemma formattedReport_ne_empty (now : String) (s : AgentState) :
    formattedReport now s ≠ emptyStr := by
  intro h
  have h2 := congrArg String.length h
  have h3 : nl.length = 1 := rfl
  have h4 : emptyStr.length = 0 := rfl
  simp only [formattedReport, String.length_append] at h2
  omega

lemma writtenReport_error_ne_empty (e : String) (notes : List String) :
    ("Error generating report: " ++ e ++ "\n\nRaw Notes:\n" ++
      String.intercalate nl notes) ≠ emptyStr := by
  intro h
  have h2 := congrArg String.length h
  have h3 : ("Error generating report: " : String).length = 25 := rfl
  have h4 : emptyStr.length = 0 := rfl
  simp only [String.length_append] at h2
  omega

lemma runTrace_zero (o : Oracle) (n : Node) (s : AgentState) :
    runTrace o 0 n s = Except.ok ([], n, s) := by
  cases n <;> rfl

lemma runTrace_done (o : Oracle) (f : Nat) (s : AgentState) :
    runTrace o f Node.done s = Except.ok ([], Node.done, s) := by
  cases f <;> rfl

lemma runTrace_succ_ne_done (o : Oracle) (f : Nat) (n : Node) (s : AgentState)
    (hn : n ≠ Node.done) :
    runTrace o (f + 1) n s =
      match step o n s with
      | Except.error e => Except.error e
      | Except.ok (n', s') =>
          match runTrace o f n' s' with
          | Except.error e => Except.error e
          | Except.ok (tr, nf, s'') => Except.ok (n :: tr, nf, s'') := by
  cases n <;> first | exact absurd rfl hn | rfl

lemma runTrace_step (o : Oracle) (f : Nat) (n : Node) (s : AgentState)
    (n' : Node) (s' : AgentState) (tr : List Node) (nf : Node)
    (s'' : AgentState) (hn : n ≠ Node.done)
    (h1 : step o n s = Except.ok (n', s'))
    (h2 : runTrace o f n' s' = Except.ok (tr, nf, s'')) :
    runTrace o (f + 1) n s = Except.ok (n :: tr, nf, s'') := by
  rw [runTrace_succ_ne_done o f n s hn, h1]
  dsimp only
  rw [h2]

lemma runTrace_ok_inv (o : Oracle) (f : Nat) (n : Node) (s : AgentState)
    (tr : List Node) (nf : Node) (s' : AgentState) (hn : n ≠ Node.done)
    (h : runTrace o (f + 1) n s = Except.ok (tr, nf, s')) :
    ∃ n1 s1 tr1, step o n s = Except.ok (n1, s1) ∧
      runTrace o f n1 s1 = Except.ok (tr1, nf, s') ∧ tr = n :: tr1 := by
  rw [runTrace_succ_ne_done o f n s hn] at h
  cases hs : step o n s with
  | error e => rw [hs] at h; simp at h
  | ok p =>
      obtain ⟨n1, s1⟩ := p
      rw [hs] at h
      dsimp only at h
      cases hr : runTrace o f n1 s1 with
      | error e => rw [hr] at h; simp at h
      | ok q =>
          obtain ⟨tr1, nf1, s2⟩ := q
          rw [hr] at h
          dsimp only at h
          simp only [Except.ok.injEq, Prod.mk.injEq] at h
          obtain ⟨h1, h2, h3⟩ := h
          subst h1; subst h2; subst h3
          exact ⟨n1, s1, tr1, rfl, hr, rfl⟩

lemma gsr_clarify_ok (o : Oracle) (g : String → String)
    (hg : o.gen = fun p => Except.ok (g p)) (prompt : String) :
    get_structured_response_clarify o prompt =
      Except.ok (structuredClarify o (g (fullPrompt prompt clarifySchemaStr))) := by
  unfold get_structured_response_clarify
  rw [hg]

lemma gsr_brief_ok (o : Oracle) (g : String → String)
    (hg : o.gen = fun p => Except.ok (g p)) (prompt : String) :
    get_structured_response_brief o prompt =
      Except.ok (structuredBrief o prompt (g (fullPrompt prompt briefSchemaStr))) := by
  unfold get_structured_response_brief
  rw [hg]

lemma gsr_plan_ok (o : Oracle) (g : String → String)
    (hg : o.gen = fun p => Except.ok (g p)) (prompt : String) :
    get_structured_response_plan o prompt =
      Except.ok (structuredPlan o (g (fullPrompt prompt planSchemaStr))) := by
  unfold get_structured_response_plan
  rw [hg]

lemma gsr_critique_ok (o : Oracle) (g : String → String)
    (hg : o.gen = fun p => Except.ok (g p)) (prompt : String) :
    get_structured_response_critique o prompt =
      Except.ok (structuredCritique o (g (fullPrompt prompt critiqueSchemaStr))) := by
  unfold get_structured_response_critique
  rw [hg]

lemma writer_step (o : Oracle) (s : AgentState) :
    step o Node.writer s =
      Except.ok (Node.critic, { s with draft_report := writtenReport o s }) := rfl

lemma researcher_step (o : Oracle) (s : AgentState) :
    step o Node.researcher s =
      Except.ok (Node.synthesis,
        { s with raw_notes := collectedNotes o s.search_queries }) := rfl

lemma finalizer_step (o : Oracle) (s : AgentState) :
    step o Node.finalizer s =
      Except.ok (Node.done,
        { s with final_report := formattedReport o.now s,
                 notion_page_url := notionUrlOf o s }) := rfl

lemma clarify_step_clar (o : Oracle) (g : String → String) (s : AgentState)
    (hg : o.gen = fun p => Except.ok (g p))
    (hyes : (clarifyResponse o g s).need_clarification = true) :
    step o Node.clarify s = Except.ok (Node.done,
      { s with messages := s.messages ++
          [{ role := aiRole, content := (clarifyResponse o g s).question }] }) := by
  simp only [step, clarify_with_user,
    gsr_clarify_ok o g hg (clarifyPrompt (conversationOf s.messages))]
  rw [if_pos hyes]

lemma clarify_step_noclar (o : Oracle) (g : String → String) (s : AgentState)
    (hg : o.gen = fun p => Except.ok (g p))
    (hno : (clarifyResponse o g s).need_clarification = false) :
    step o Node.clarify s = Except.ok (Node.planner,
      { s with messages := s.messages ++
          [{ role := aiRole, content := (clarifyResponse o g s).verification }] }) := by
  simp only [step, clarify_with_user,
    gsr_clarify_ok o g hg (clarifyPrompt (conversationOf s.messages))]
  rw [if_neg]
  intro hc
  exact Bool.false_ne_true ((hno.symm.trans hc))

lemma planner_step (o : Oracle) (g : String → String) (s : AgentState)
    (hg : o.gen = fun p => Except.ok (g p)) :
    step o Node.planner s = Except.ok (Node.researcher,
      { s with research_brief := (plannerBrief o g s).research_brief,
               search_queries := (plannerPlan o g s).search_queries,
               key_topics := (plannerPlan o g s).key_topics }) := by
  simp only [step, planner_agent,
    gsr_brief_ok o g hg (briefPrompt (conversationOf s.messages)),
    gsr_plan_ok o g hg]

lemma synthesis_step (o : Oracle) (g : String → String) (s : AgentState)
    (hg : o.gen = fun p => Except.ok (g p)) :
    step o Node.synthesis s = Except.ok (Node.writer,
      { s with notes :=
          [g (synthesisPrompt s.research_brief s.key_topics s.raw_notes)] }) := by
  simp only [step, synthesis_agent, hg]

lemma critic_step_of_ok (o : Oracle) (s : AgentState) (c : Critique)
    (hc : get_structured_response_critique o
        (critiquePrompt s.research_brief s.draft_report) = Except.ok c) :
    step o Node.critic s =
      if c.needs_revision ∧ s.iteration_count < MAX_ITERATIONS then
        Except.ok (Node.writer,
          { s with critique_feedback := feedbackOf c,
                   iteration_count := s.iteration_count + 1 })
      else Except.ok (Node.finalizer, s) := by
  simp only [step, critic_agent, hc]

lemma step_iteration (o : Oracle) (n : Node) (s : AgentState) (n' : Node)
    (s' : AgentState) (h : step o n s = Except.ok (n', s')) :
    s'.iteration_count = s.iteration_count ∨
    (n = Node.critic ∧ s'.iteration_count = s.iteration_count + 1 ∧
      s.iteration_count < MAX_ITERATIONS ∧
      ∃ c, get_structured_response_critique o
            (critiquePrompt s.research_brief s.draft_report) = Except.ok c ∧
          c.needs_revision = true) := by
  cases n with
  | clarify =>
      left
      simp only [step, clarify_with_user] at h
      cases hg : get_structured_response_clarify o
          (clarifyPrompt (conversationOf s.messages)) with
      | error e => rw [hg] at h; simp at h
      | ok r =>
          rw [hg] at h
          dsimp only at h
          split at h <;>
            (simp only [Except.ok.injEq, Prod.mk.injEq] at h;
             obtain ⟨h1, h2⟩ := h; subst h2; rfl)
  | planner =>
      left
      simp only [step, planner_agent] at h
      cases hg : get_structured_response_brief o
          (briefPrompt (conversationOf s.messages)) with
      | error e => rw [hg] at h; simp at h
      | ok r =>
          rw [hg] at h
          dsimp only at h
          cases hp : get_structured_response_plan o
              (planPrompt r.research_brief) with
          | error e => rw [hp] at h; simp at h
          | ok p =>
              rw [hp] at h
              simp only [Except.ok.injEq, Prod.mk.injEq] at h
              obtain ⟨h1, h2⟩ := h; subst h2; rfl
  | researcher =>
      left
      rw [researcher_step] at h
      simp only [Except.ok.injEq, Prod.mk.injEq] at h
      obtain ⟨h1, h2⟩ := h; subst h2; rfl
  | synthesis =>
      left
      simp only [step, synthesis_agent] at h
      cases hg : o.gen (synthesisPrompt s.research_brief s.key_topics s.raw_notes) with
      | error e => rw [hg] at h; simp at h
      | ok t =>
          rw [hg] at h
          simp only [Except.ok.injEq, Prod.mk.injEq] at h
          obtain ⟨h1, h2⟩ := h; subst h2; rfl
  | writer =>
      left
      rw [writer_step] at h
      simp only [Except.ok.injEq, Prod.mk.injEq] at h
      obtain ⟨h1, h2⟩ := h; subst h2; rfl
  | critic =>
      simp only [step, critic_agent] at h
      cases hc : get_structured_response_critique o
          (critiquePrompt s.research_brief s.draft_report) with
      | error e => rw [hc] at h; simp at h
      | ok c =>
          rw [hc] at h
          dsimp only at h
          split at h
          next hcond =>
              simp only [Except.ok.injEq, Prod.mk.injEq] at h
              obtain ⟨h1, h2⟩ := h; subst h2
              exact Or.inr ⟨rfl, rfl, hcond.2, c, rfl, hcond.1⟩
          next hcond =>
              simp only [Except.ok.injEq, Prod.mk.injEq] at h
              obtain ⟨h1, h2⟩ := h; subst h2
              exact Or.inl rfl
  | finalizer =>
      left
      rw [finalizer_step] at h
      simp only [Except.ok.injEq, Prod.mk.injEq] at h
      obtain ⟨h1, h2⟩ := h; subst h2; rfl
  | done =>
      left
      simp only [step, Except.ok.injEq, Prod.mk.injEq] at h
      obtain ⟨h1, h2⟩ := h; subst h2; rfl

lemma runTrace_iter_bound (o : Oracle) :
    ∀ (fuel : Nat) (n : Node) (s : AgentState) (tr : List Node) (nf : Node)
      (s' : AgentState),
      runTrace o fuel n s = Except.ok (tr, nf, s') →
      s.iteration_count ≤ MAX_ITERATIONS →
      s'.iteration_count ≤ MAX_ITERATIONS := by
  intro fuel
  induction fuel with
  | zero =>
      intro n s tr nf s' h hb
      rw [runTrace_zero] at h
      simp only [Except.ok.injEq, Prod.mk.injEq] at h
      obtain ⟨h1, h2, h3⟩ := h; subst h3; exact hb
  | succ f ih =>
      intro n s tr nf s' h hb
      by_cases hd : n = Node.done
      · subst hd
        rw [runTrace_done] at h
        simp only [Except.ok.injEq, Prod.mk.injEq] at h
        obtain ⟨h1, h2, h3⟩ := h; subst h3; exact hb
      · obtain ⟨n1, s1, tr1, hs, hr, rfl⟩ :=
          runTrace_ok_inv o f n s tr nf s' hd h
        have hb1 : s1.iteration_count ≤ MAX_ITERATIONS := by
          rcases step_iteration o n s n1 s1 hs with he | ⟨-, he, hlt, -⟩ <;> omega
        exact ih n1 s1 tr1 nf s' hr hb1

lemma extractTitleScan_eq_find (ls : List String) :
    extractTitleScan ls =
      match ls.find? titleLineOk with
      | some line => strTake (strTrim line) 100
      | none => defaultTitle := by
  induction ls with
  | nil => rfl
  | cons l ls ih =>
      by_cases h : titleLineOk l
      · rw [extractTitleScan, if_pos h, List.find?_cons_of_pos ls h]
      · rw [extractTitleScan, if_neg h, ih, List.find?_cons_of_neg ls h]

lemma run_from_writer (o : Oracle) (g : String → String)
    (hg : o.gen = fun p => Except.ok (g p)) :
    ∀ (j : Nat) (s : AgentState), s.iteration_count + j = MAX_ITERATIONS →
      ∀ fuel, 2 * j + 3 ≤ fuel →
      ∃ tr s', runTrace o fuel Node.writer s = Except.ok (tr, Node.done, s') ∧
        s'.final_report ≠ emptyStr := by
  intro j
  induction j with
  | zero =>
      intro s hsum fuel hfuel
      obtain ⟨k, rfl⟩ : ∃ k, fuel = k + 3 := ⟨fuel - 3, by omega⟩
      obtain ⟨c, hc⟩ : ∃ c, get_structured_response_critique o
          (critiquePrompt
            ({ s with draft_report := writtenReport o s } : AgentState).research_brief
            ({ s with draft_report := writtenReport o s } : AgentState).draft_report) =
            Except.ok c :=
        ⟨_, gsr_critique_ok o g hg _⟩
      have hcrit : step o Node.critic { s with draft_report := writtenReport o s } =
          Except.ok (Node.finalizer, { s with draft_report := writtenReport o s }) := by
        rw [critic_step_of_ok o _ c hc, if_neg]
        intro hcond
        have h2 := hcond.2
        have he : ({ s with draft_report := writtenReport o s } :
            AgentState).iteration_count = s.iteration_count := rfl
        omega
      have hchain := runTrace_step o (k + 2) Node.writer s Node.critic _ _ _ _
        (by decide) (writer_step o s)
        (runTrace_step o (k + 1) Node.critic _ Node.finalizer _ _ _ _
          (by decide) hcrit
          (runTrace_step o k Node.finalizer _ Node.done _ _ _ _
            (by decide) (finalizer_step o _)
            (runTrace_done o k _)))
      exact ⟨_, _, hchain, formattedReport_ne_empty o.now _⟩
  | succ j ih =>
      intro s hsum fuel hfuel
      obtain ⟨k, hk, hkf⟩ : ∃ k, 2 * j + 3 ≤ k ∧ fuel = k + 2 :=
        ⟨fuel - 2, by omega, by omega⟩
      subst hkf
      obtain ⟨c, hc⟩ : ∃ c, get_structured_response_critique o
          (critiquePrompt
            ({ s with draft_report := writtenReport o s } : AgentState).research_brief
            ({ s with draft_report := writtenReport o s } : AgentState).draft_report) =
            Except.ok c :=
        ⟨_, gsr_critique_ok o g hg _⟩
      have hcritIte := critic_step_of_ok o
        { s with draft_report := writtenReport o s } c hc
      by_cases hcond : c.needs_revision ∧
          ({ s with draft_report := writtenReport o s } :
            AgentState).iteration_count < MAX_ITERATIONS
      · rw [if_pos hcond] at hcritIte
        have he : ({ s with draft_report := writtenReport o s } :
            AgentState).iteration_count = s.iteration_count := rfl
        obtain ⟨tr, s', hrun, hne⟩ := ih
          { { s with draft_report := writtenReport o s } with
              critique_feedback := feedbackOf c,
              iteration_count :=
                ({ s with draft_report := writtenReport o s } :
                  AgentState).iteration_count + 1 }
          (by
            have h1 : ({ { s with draft_report := writtenReport o s } with
                critique_feedback := feedbackOf c,
                iteration_count :=
                  ({ s with draft_report := writtenReport o s } :
                    AgentState).iteration_count + 1 } :
                AgentState).iteration_count = s.iteration_count + 1 := rfl
            omega)
          k (by omega)
        have hchain := runTrace_step o (k + 1) Node.writer s Node.critic _ _ _ _
          (by decide) (writer_step o s)
          (runTrace_step o k Node.critic _ Node.writer _ _ _ _
            (by decide) hcritIte hrun)
        exact ⟨_, s', hchain, hne⟩
      · rw [if_neg hcond] at hcritIte
        obtain ⟨m, rfl⟩ : ∃ m, k = m + 2 := ⟨k - 2, by omega⟩
        have hchain := runTrace_step o (m + 3) Node.writer s Node.critic _ _ _ _
          (by decide) (writer_step o s)
          (runTrace_step o (m + 2) Node.critic _ Node.finalizer _ _ _ _
            (by decide) hcritIte
            (runTrace_step o (m + 1) Node.finalizer _ Node.done _ _ _ _
              (by decide) (finalizer_step o _)
              (runTrace_done o (m + 1) _)))
        exact ⟨_, _, hchain, formattedReport_ne_empty o.now _⟩

lemma clarify_step_noclar_parsed (o : Oracle) (g : String → String)
    (cl : String → ClarifyWithUser)
    (hg : o.gen = fun p => Except.ok (g p))
    (hcl : o.parseClarify = fun t => some (cl t))
    (hclf : ∀ t, (cl t).need_clarification = false) (s : AgentState) :
    step o Node.clarify s = Except.ok (Node.planner,
      { s with messages := s.messages ++
          [{ role := aiRole, content := (clarifyResponse o g s).verification }] }) := by
  apply clarify_step_noclar o g s hg
  simp [clarifyResponse, structuredClarify, hcl, hclf]

lemma critic_step_revise_parsed (o : Oracle) (g : String → String)
    (cr : String → Critique)
    (hg : o.gen = fun p => Except.ok (g p))
    (hcr : o.parseCritique = fun t => some (cr t))
    (hcrt : ∀ t, (cr t).needs_revision = true) (s : AgentState)
    (hlt : s.iteration_count < MAX_ITERATIONS) :
    step o Node.critic s = Except.ok (Node.writer,
      { s with critique_feedback := feedbackOf (criticCritique o g s),
               iteration_count := s.iteration_count + 1 }) := by
  have hc := gsr_critique_ok o g hg (critiquePrompt s.research_brief s.draft_report)
  have hcond : (structuredCritique o
      (g (fullPrompt (critiquePrompt s.research_brief s.draft_report)
        critiqueSchemaStr))).needs_revision = true ∧
      s.iteration_count < MAX_ITERATIONS :=
    ⟨by simp [structuredCritique, hcr, hcrt], hlt⟩
  rw [critic_step_of_ok o s _ hc, if_pos hcond]

lemma critic_step_finalize_atmax (o : Oracle) (g : String → String)
    (hg : o.gen = fun p => Except.ok (g p)) (s : AgentState)
    (hmax : ¬ s.iteration_count < MAX_ITERATIONS) :
    step o Node.critic s = Except.ok (Node.finalizer, s) := by
  have hc := gsr_critique_ok o g hg (critiquePrompt s.research_brief s.draft_report)
  rw [critic_step_of_ok o s _ hc, if_neg]
  intro hcond
  exact hmax hcond.2

/-! ### Claim theorems -/

/-- Claim C3: the finalizer's source list is built from the first line of
each source-tagged raw note, tag stripped, deduplicated by exact string
equality and truncated to 25, so the rendered source list always has
length at most 25 and contains no two equal identifiers. -/
theorem sources_dedup_bounded :
    ∀ raw_notes : List String,
      renderedSources raw_notes = (sourcesOf raw_notes).take 25 ∧
      sourcesOf raw_notes =
        ((raw_notes.filter (fun note => strStartsWith note srcTag)).map
          (fun note =>
            strReplace ((strSplitOn note nl).headD emptyStr) srcTagSp
              emptyStr)).dedup ∧
      (renderedSources raw_notes).length ≤ 25 ∧
      (renderedSources raw_notes).Nodup := by
  intro raw_notes
  refine ⟨rfl, rfl, ?_, ?_⟩
  · simp [renderedSources, List.length_take]
  · exact (List.nodup_dedup _).sublist (List.take_sublist _ _)

/-- Claim C4: when the text-generation collaborator returns output that
cannot be parsed into the requested structure, the structured-response
operation returns the stage-specific safe default instead of raising:
needs-clarification with a generic question for the Clarify schema, and
no-revision-needed with empty lists for the Critique schema. -/
theorem structured_response_fallback :
    (∀ (o : Oracle) (prompt text : String),
        o.gen (fullPrompt prompt clarifySchemaStr) = Except.ok text →
        o.parseClarify (extractJsonText text) = none →
        get_structured_response_clarify o prompt = Except.ok
          { need_clarification := true, question := defaultQuestion,
            verification := emptyStr }) ∧
    (∀ (o : Oracle) (prompt text : String),
        o.gen (fullPrompt prompt critiqueSchemaStr) = Except.ok text →
        o.parseCritique (extractJsonText text) = none →
        get_structured_response_critique o prompt = Except.ok
          { needs_revision := false, critique_reasoning := emptyStr,
            specific_issues := [], improvements := [] }) := by
  constructor
  · intro o prompt text hgen hparse
    simp [get_structured_response_clarify, structuredClarify, hgen, hparse]
  · intro o prompt text hgen hparse
    simp [get_structured_response_critique, structuredCritique, hgen, hparse]

/-- Witness for C4 at the concrete oracle `oW` (generation returns empty
text, parsing fails) and the empty prompt. -/
theorem structured_response_fallback_witness :
    oW.gen (fullPrompt emptyStr clarifySchemaStr) = Except.ok emptyStr ∧
    oW.parseClarify (extractJsonText emptyStr) = none ∧
    oW.parseCritique (extractJsonText emptyStr) = none ∧
    get_structured_response_clarify oW emptyStr = Except.ok
      { need_clarification := true, question := defaultQuestion,
        verification := emptyStr } ∧
    get_structured_response_critique oW emptyStr = Except.ok
      { needs_revision := false, critique_reasoning := emptyStr,
        specific_issues := [], improvements := [] } :=
  ⟨rfl, rfl, rfl,
    structured_response_fallback.1 oW emptyStr emptyStr rfl rfl,
    structured_response_fallback.2 oW emptyStr emptyStr rfl rfl⟩

/-- Claim C6: when the archive step fails (failure dictionary or raised
exception) the finalizer still reaches END with exactly the same fully
formatted report it produces under any other archive behaviour, and the
archive-page reference is left as the empty string. -/
theorem archive_failure_still_reports :
    ∀ (o o' : Oracle) (s : AgentState), o.now = o'.now →
      ∃ s1 s2,
        finalizer o s = Except.ok (Node.done, s1) ∧
        finalizer o' s = Except.ok (Node.done, s2) ∧
        s1.final_report = s2.final_report ∧
        s1.final_report = formattedReport o.now s ∧
        (∀ e, o.archive (archiveReqOf o.now s) = ArchiveOutcome.failed e →
            s1.notion_page_url = emptyStr) ∧
        (∀ e, o.archive (archiveReqOf o.now s) = ArchiveOutcome.raised e →
            s1.notion_page_url = emptyStr) := by
  intro o o' s hnow
  refine ⟨_, _, rfl, rfl, by simp [hnow], rfl, ?_, ?_⟩ <;>
    (intro e he; simp [notionUrlOf, he])

/-- Witness for C6: `oW` returns the failure dictionary, `oArch` raises;
both share the same clock. -/
theorem archive_failure_still_reports_witness :
    oW.now = oArch.now ∧
    (∃ s1 s2,
      finalizer oW (initState msgs0) = Except.ok (Node.done, s1) ∧
      finalizer oArch (initState msgs0) = Except.ok (Node.done, s2) ∧
      s1.final_report = s2.final_report ∧
      s1.final_report = formattedReport oW.now (initState msgs0) ∧
      (∀ e, oW.archive (archiveReqOf oW.now (initState msgs0)) =
          ArchiveOutcome.failed e → s1.notion_page_url = emptyStr) ∧
      (∀ e, oW.archive (archiveReqOf oW.now (initState msgs0)) =
          ArchiveOutcome.raised e → s1.notion_page_url = emptyStr)) :=
  ⟨rfl, archive_failure_still_reports oW oArch (initState msgs0) rfl⟩

/-- Claim C7 counterexample: the code scans the first 10 RAW lines of the
draft (blank lines count toward the 10), not the first 10 non-empty lines
as claimed: on a draft whose first 10 lines are blank and whose 11th line
is a valid title, the code falls back to the default title while the
claimed policy would pick the 11th line. -/
theorem title_scan_cex :
    extractTitle badDraft = defaultTitle ∧
    extractTitleSpecTen badDraft =
      "Interesting findings about hiking" ∧
    extractTitle badDraft ≠ extractTitleSpecTen badDraft := by
  refine ⟨rfl, by decide, by decide⟩

/-- Claim C7 (amended): the title extraction scans the first 10 raw lines
of the draft (blank lines count toward the 10 but are skipped), skips
lines starting with a separator or heading marker, selects the first
remaining line longer than 10 characters truncated to 100 characters, and
falls back to the fixed default title when no line qualifies. -/
theorem title_policy_first_ten_raw_lines :
    ∀ d : String, extractTitle d = extractTitleScan ((strSplitOn d nl).take 10) := by
  intro d
  rw [extractTitleScan_eq_find]
  rfl

/-- Claim C8: the extracted title is a deterministic function of the
draft text alone; in particular the title handed to the archive request
agrees on any two states sharing a draft report. -/
theorem title_extraction_deterministic :
    (∀ d : String, extractTitle d = extractTitle d) ∧
    (∀ now now' : String, ∀ s s' : AgentState,
        s.draft_report = s'.draft_report →
        (archiveReqOf now s).title = (archiveReqOf now' s').title) := by
  refine ⟨fun _ => rfl, ?_⟩
  intro now now' s s' h
  simp [archiveReqOf, h]

/-- Witness for C8 at two concrete states sharing a draft. -/
theorem title_extraction_deterministic_witness :
    stA.draft_report = stB.draft_report ∧
    (archiveReqOf emptyStr stA).title = (archiveReqOf nl stB).title :=
  ⟨rfl, title_extraction_deterministic.2 emptyStr nl stA stB rfl⟩

/-- Claim C9: with an empty raw-notes list the finalizer still completes,
producing a formatted report with an empty source list rather than an
error. -/
theorem empty_notes_finalize_ok :
    ∀ (o : Oracle) (s : AgentState), s.raw_notes = [] →
      renderedSources s.raw_notes = [] ∧
      ∃ s', finalizer o s = Except.ok (Node.done, s') ∧
        s'.final_report = formattedReport o.now s ∧
        s'.final_report ≠ emptyStr := by
  intro o s h
  refine ⟨by rw [h]; rfl, _, rfl, rfl, formattedReport_ne_empty o.now s⟩

/-- Witness for C9 at the fresh session, whose raw-notes list is empty. -/
theorem empty_notes_finalize_ok_witness :
    (initState msgs0).raw_notes = [] ∧
    (renderedSources (initState msgs0).raw_notes = [] ∧
      ∃ s', finalizer oW (initState msgs0) = Except.ok (Node.done, s') ∧
        s'.final_report = formattedReport oW.now (initState msgs0) ∧
        s'.final_report ≠ emptyStr) :=
  ⟨rfl, empty_notes_finalize_ok oW (initState msgs0) rfl⟩

/-- Claim C10: the writer stage never propagates a generation error: it
always transitions to the critic, and when generation raises it stores
the non-empty fallback draft made of the error message followed by the
synthesized notes. -/
theorem writer_exception_fallback :
    (∀ (o : Oracle) (s : AgentState), ∃ s',
        writer_agent o s = Except.ok (Node.critic, s')) ∧
    (∀ (o : Oracle) (s : AgentState) (e : String),
        o.gen (reportPrompt s.research_brief s.notes s.critique_feedback) =
          Except.error e →
        ∃ s', writer_agent o s = Except.ok (Node.critic, s') ∧
          s'.draft_report = "Error generating report: " ++ e ++
            "\n\nRaw Notes:\n" ++ String.intercalate nl s.notes ∧
          s'.draft_report ≠ emptyStr) := by
  constructor
  · intro o s
    exact ⟨_, rfl⟩
  · intro o s e h
    refine ⟨{ s with draft_report := "Error generating report: " ++ e ++
        "\n\nRaw Notes:\n" ++ String.intercalate nl s.notes }, ?_, rfl,
      writtenReport_error_ne_empty e s.notes⟩
    simp [writer_agent, writtenReport, h]

/-- Witness for C10: with `oBad`, whose generation always raises, the
writer falls back on the fresh session. -/
theorem writer_exception_fallback_witness :
    oBad.gen (reportPrompt (initState msgs0).research_brief
        (initState msgs0).notes (initState msgs0).critique_feedback) =
      Except.error boomStr ∧
    (∃ s', writer_agent oBad (initState msgs0) = Except.ok (Node.critic, s') ∧
      s'.draft_report = "Error generating report: " ++ boomStr ++
        "\n\nRaw Notes:\n" ++ String.intercalate nl (initState msgs0).notes ∧
      s'.draft_report ≠ emptyStr) :=
  ⟨rfl, writer_exception_fallback.2 oBad (initState msgs0) boomStr rfl⟩

/-- Claim C1: the revision counter starts at 0, is monotonically
non-decreasing across stage transitions, changes only by an increment of
exactly 1 at a critic step whose critique demands a revision while the
counter is below the maximum, and never exceeds the configured maximum of
2 along any run. -/
theorem revision_counter_invariant :
    (∀ msgs : List Msg, (initState msgs).iteration_count = 0) ∧
    (∀ (o : Oracle) (n : Node) (s : AgentState) (n' : Node) (s' : AgentState),
        step o n s = Except.ok (n', s') →
        s.iteration_count ≤ s'.iteration_count) ∧
    (∀ (o : Oracle) (n : Node) (s : AgentState) (n' : Node) (s' : AgentState),
        step o n s = Except.ok (n', s') →
        s'.iteration_count ≠ s.iteration_count →
        n = Node.critic ∧ s'.iteration_count = s.iteration_count + 1 ∧
        s.iteration_count < MAX_ITERATIONS ∧
        ∃ c, get_structured_response_critique o
              (critiquePrompt s.research_brief s.draft_report) = Except.ok c ∧
            c.needs_revision = true) ∧
    (∀ (o : Oracle) (fuel : Nat) (msgs : List Msg) (tr : List Node) (nf : Node)
        (s' : AgentState),
        runTrace o fuel Node.clarify (initState msgs) = Except.ok (tr, nf, s') →
        s'.iteration_count ≤ MAX_ITERATIONS) := by
  refine ⟨fun _ => rfl, ?_, ?_, ?_⟩
  · intro o n s n' s' h
    rcases step_iteration o n s n' s' h with he | ⟨-, he, -, -⟩ <;> omega
  · intro o n s n' s' h hne
    rcases step_iteration o n s n' s' h with he | hcase
    · exact absurd he hne
    · exact hcase
  · intro o fuel msgs tr nf s' h
    exact runTrace_iter_bound o fuel Node.clarify (initState msgs) tr nf s' h
      (Nat.zero_le _)

/-- Witness for C1: concrete critic steps that leave the counter fixed
(`oW`, whose critique defaults to no revision) and increment it exactly
once (`oRev`, whose critique always demands revision), plus a concrete
run ending with the counter within the bound. -/
theorem revision_counter_invariant_witness :
    (initState msgs0).iteration_count = 0 ∧
    step oW Node.critic (initState msgs0) =
      Except.ok (Node.finalizer, initState msgs0) ∧
    (initState msgs0).iteration_count ≤ (initState msgs0).iteration_count ∧
    step oRev Node.critic (initState msgs0) = Except.ok (Node.writer, stRev1) ∧
    stRev1.iteration_count ≠ (initState msgs0).iteration_count ∧
    (Node.critic = Node.critic ∧
      stRev1.iteration_count = (initState msgs0).iteration_count + 1 ∧
      (initState msgs0).iteration_count < MAX_ITERATIONS ∧
      ∃ c, get_structured_response_critique oRev
            (critiquePrompt (initState msgs0).research_brief
              (initState msgs0).draft_report) = Except.ok c ∧
          c.needs_revision = true) ∧
    runTrace oW 3 Node.clarify (initState msgs0) =
      Except.ok ([Node.clarify], Node.done, sClar1) ∧
    sClar1.iteration_count ≤ MAX_ITERATIONS :=
  ⟨revision_counter_invariant.1 msgs0, rfl,
    revision_counter_invariant.2.1 oW Node.critic (initState msgs0)
      Node.finalizer (initState msgs0) rfl,
    rfl,
    by decide,
    revision_counter_invariant.2.2.1 oRev Node.critic (initState msgs0)
      Node.writer stRev1 rfl (by decide),
    rfl,
    revision_counter_invariant.2.2.2 oW 3 msgs0 [Node.clarify] Node.done
      sClar1 rfl⟩

/-- Claim C2: a critic step that completes with the counter already at
the maximum always transitions to the finalizer regardless of the
critique verdict; and when the critique demands a revision at every
invocation (clarification passing, generation total), the run enters the
writer stage exactly 3 times and reaches the finalizer right after the
third critique. -/
theorem max_iterations_forces_finalize :
    (∀ (o : Oracle) (s : AgentState) (n' : Node) (s' : AgentState),
        s.iteration_count = MAX_ITERATIONS →
        critic_agent o s = Except.ok (n', s') → n' = Node.finalizer) ∧
    (∀ (o : Oracle) (g : String → String) (cl : String → ClarifyWithUser)
        (cr : String → Critique),
        o.gen = (fun p => Except.ok (g p)) →
        o.parseClarify = (fun t => some (cl t)) →
        (∀ t, (cl t).need_clarification = false) →
        o.parseCritique = (fun t => some (cr t)) →
        (∀ t, (cr t).needs_revision = true) →
        ∀ msgs : List Msg, ∃ s',
          runTrace o 20 Node.clarify (initState msgs) =
            Except.ok (scenarioTrace, Node.done, s') ∧
          scenarioTrace.count Node.writer = 3) := by
  constructor
  · intro o s n' s' hmax h
    unfold critic_agent at h
    cases hc : get_structured_response_critique o
        (critiquePrompt s.research_brief s.draft_report) with
    | error e => rw [hc] at h; simp at h
    | ok c =>
        rw [hc] at h
        dsimp only at h
        rw [if_neg (by intro hcond; omega)] at h
        simp only [Except.ok.injEq, Prod.mk.injEq] at h
        exact h.1.symm
  · intro o g cl cr hg hcl hclf hcr hcrt msgs
    have hM : MAX_ITERATIONS = 2 := rfl
    obtain ⟨s1, h1, c1⟩ : ∃ s1,
        step o Node.clarify (initState msgs) = Except.ok (Node.planner, s1) ∧
        s1.iteration_count = 0 :=
      ⟨_, clarify_step_noclar_parsed o g cl hg hcl hclf (initState msgs), rfl⟩
    obtain ⟨s2, h2, c2⟩ : ∃ s2,
        step o Node.planner s1 = Except.ok (Node.researcher, s2) ∧
        s2.iteration_count = s1.iteration_count :=
      ⟨_, planner_step o g s1 hg, rfl⟩
    obtain ⟨s3, h3, c3⟩ : ∃ s3,
        step o Node.researcher s2 = Except.ok (Node.synthesis, s3) ∧
        s3.iteration_count = s2.iteration_count :=
      ⟨_, researcher_step o s2, rfl⟩
    obtain ⟨s4, h4, c4⟩ : ∃ s4,
        step o Node.synthesis s3 = Except.ok (Node.writer, s4) ∧
        s4.iteration_count = s3.iteration_count :=
      ⟨_, synthesis_step o g s3 hg, rfl⟩
    obtain ⟨s5, h5, c5⟩ : ∃ s5,
        step o Node.writer s4 = Except.ok (Node.critic, s5) ∧
        s5.iteration_count = s4.iteration_count :=
      ⟨_, writer_step o s4, rfl⟩
    obtain ⟨s6, h6, c6⟩ : ∃ s6,
        step o Node.critic s5 = Except.ok (Node.writer, s6) ∧
        s6.iteration_count = s5.iteration_count + 1 :=
      ⟨_, critic_step_revise_parsed o g cr hg hcr hcrt s5 (by omega), rfl⟩
    obtain ⟨s7, h7, c7⟩ : ∃ s7,
        step o Node.writer s6 = Except.ok (Node.critic, s7) ∧
        s7.iteration_count = s6.iteration_count :=
      ⟨_, writer_step o s6, rfl⟩
    obtain ⟨s8, h8, c8⟩ : ∃ s8,
        step o Node.critic s7 = Except.ok (Node.writer, s8) ∧
        s8.iteration_count = s7.iteration_count + 1 :=
      ⟨_, critic_step_revise_parsed o g cr hg hcr hcrt s7 (by omega), rfl⟩
    obtain ⟨s9, h9, c9⟩ : ∃ s9,
        step o Node.writer s8 = Except.ok (Node.critic, s9) ∧
        s9.iteration_count = s8.iteration_count :=
      ⟨_, writer_step o s8, rfl⟩
    have h10 : step o Node.critic s9 = Except.ok (Node.finalizer, s9) :=
      critic_step_finalize_atmax o g hg s9 (by omega)
    obtain ⟨s11, h11⟩ : ∃ s11,
        step o Node.finalizer s9 = Except.ok (Node.done, s11) :=
      ⟨_, finalizer_step o s9⟩
    refine ⟨s11, ?_, by decide⟩
    exact runTrace_step o 19 Node.clarify (initState msgs) Node.planner s1 _ _ _
      (by decide) h1
      (runTrace_step o 18 Node.planner s1 Node.researcher s2 _ _ _
        (by decide) h2
        (runTrace_step o 17 Node.researcher s2 Node.synthesis s3 _ _ _
          (by decide) h3
          (runTrace_step o 16 Node.synthesis s3 Node.writer s4 _ _ _
            (by decide) h4
            (runTrace_step o 15 Node.writer s4 Node.critic s5 _ _ _
              (by decide) h5
              (runTrace_step o 14 Node.critic s5 Node.writer s6 _ _ _
                (by decide) h6
                (runTrace_step o 13 Node.writer s6 Node.critic s7 _ _ _
                  (by decide) h7
                  (runTrace_step o 12 Node.critic s7 Node.writer s8 _ _ _
                    (by decide) h8
                    (runTrace_step o 11 Node.writer s8 Node.critic s9 _ _ _
                      (by decide) h9
                      (runTrace_step o 10 Node.critic s9 Node.finalizer s9 _ _ _
                        (by decide) h10
                        (runTrace_step o 9 Node.finalizer s9 Node.done s11 _ _ _
                          (by decide) h11
                          (runTrace_done o 9 s11)))))))))))

/-- Witness for C2: the at-the-cap critic step with `oW`, and the
always-revise scenario run with `oRev`. -/
theorem max_iterations_forces_finalize_witness :
    stMax.iteration_count = MAX_ITERATIONS ∧
    critic_agent oW stMax = Except.ok (Node.finalizer, stMax) ∧
    Node.finalizer = Node.finalizer ∧
    (∃ s', runTrace oRev 20 Node.clarify (initState msgs0) =
        Except.ok (scenarioTrace, Node.done, s') ∧
      scenarioTrace.count Node.writer = 3) :=
  ⟨rfl, rfl,
    max_iterations_forces_finalize.1 oW stMax Node.finalizer stMax rfl rfl,
    max_iterations_forces_finalize.2 oRev gZero clNoF crYesF rfl rfl
      (fun _ => rfl) rfl (fun _ => rfl) msgs0⟩

/-- Claim C5 counterexample: a text-generation invocation that raises is
NOT recovered: the synthesis stage has no exception handler around
`model.generate_content`, and in `get_structured_response` the generation
call sits before the try block, so the raw collaborator error propagates
out of the workflow to the caller. -/
theorem collaborator_error_propagates_cex :
    synthesis_agent oBad (initState msgs0) = Except.error boomStr ∧
    runTrace oBad 20 Node.clarify (initState msgs0) = Except.error boomStr :=
  ⟨rfl, rfl⟩

/-- Claim C5 (amended): provided every text-generation invocation returns
a response (malformed output is allowed and handled by the fallback
defaults), the workflow always terminates at END and the caller receives
either a completed final report or an in-progress clarifying question;
a raising invocation, by contrast, propagates (see the counterexample). -/
theorem workflow_outcome_when_gen_total :
    ∀ (o : Oracle) (g : String → String),
      o.gen = (fun p => Except.ok (g p)) →
      ∀ msgs : List Msg, ∃ tr s',
        runTrace o 20 Node.clarify (initState msgs) =
          Except.ok (tr, Node.done, s') ∧
        (s'.final_report ≠ emptyStr ∨
          ∃ q, s'.messages.getLast? = some { role := aiRole, content := q }) := by
  intro o g hg msgs
  by_cases hneed : (clarifyResponse o g (initState msgs)).need_clarification = true
  · have h1 := clarify_step_clar o g (initState msgs) hg hneed
    have htr := runTrace_step o 19 Node.clarify (initState msgs) Node.done _ _ _ _
      (by decide) h1 (runTrace_done o 19 _)
    refine ⟨_, _, htr,
      Or.inr ⟨(clarifyResponse o g (initState msgs)).question, ?_⟩⟩
    show ((initState msgs).messages ++
      [({ role := aiRole,
          content := (clarifyResponse o g (initState msgs)).question } : Msg)]).getLast? = _
    simp [List.getLast?_concat]
  · rw [Bool.not_eq_true] at hneed
    have hM : MAX_ITERATIONS = 2 := rfl
    obtain ⟨s1, h1, c1⟩ : ∃ s1,
        step o Node.clarify (initState msgs) = Except.ok (Node.planner, s1) ∧
        s1.iteration_count = 0 :=
      ⟨_, clarify_step_noclar o g (initState msgs) hg hneed, rfl⟩
    obtain ⟨s2, h2, c2⟩ : ∃ s2,
        step o Node.planner s1 = Except.ok (Node.researcher, s2) ∧
        s2.iteration_count = s1.iteration_count :=
      ⟨_, planner_step o g s1 hg, rfl⟩
    obtain ⟨s3, h3, c3⟩ : ∃ s3,
        step o Node.researcher s2 = Except.ok (Node.synthesis, s3) ∧
        s3.iteration_count = s2.iteration_count :=
      ⟨_, researcher_step o s2, rfl⟩
    obtain ⟨s4, h4, c4⟩ : ∃ s4,
        step o Node.synthesis s3 = Except.ok (Node.writer, s4) ∧
        s4.iteration_count = s3.iteration_count :=
      ⟨_, synthesis_step o g s3 hg, rfl⟩
    obtain ⟨trW, sF, hrunW, hne⟩ :=
      run_from_writer o g hg 2 s4 (by omega) 16 (by omega)
    have htr := runTrace_step o 19 Node.clarify (initState msgs) Node.planner s1
      _ _ _ (by decide) h1
      (runTrace_step o 18 Node.planner s1 Node.researcher s2 _ _ _
        (by decide) h2
        (runTrace_step o 17 Node.researcher s2 Node.synthesis s3 _ _ _
          (by decide) h3
          (runTrace_step o 16 Node.synthesis s3 Node.writer s4 _ _ _
            (by decide) h4 hrunW)))
    exact ⟨_, sF, htr, Or.inl hne⟩

/-- Witness for the amended C5 at the concrete oracle `oW` (generation
total, every parse failing). -/
theorem workflow_outcome_when_gen_total_witness :
    oW.gen = (fun p => Except.ok (gZero p)) ∧
    (∃ tr s', runTrace oW 20 Node.clarify (initState msgs0) =
        Except.ok (tr, Node.done, s') ∧
      (s'.final_report ≠ emptyStr ∨
        ∃ q, s'.messages.getLast? = some { role := aiRole, content := q })) :=
  ⟨rfl, workflow_outcome_when_gen_total oW gZero rfl msgs0⟩

end ThinkBot
